import Mathlib

/-!
Verification of the graph-based access-control and lifecycle core of the
stoyanography-share-backend repository.  The JavaScript services are shallowly
embedded as pure Lean functions over an explicit `Store` value that plays the
role of the OrientDB graph database: vertex classes become lists of records,
edge classes become lists of edge records, and each service method becomes a
function from a store (plus its request parameters and the current time) to a
result and a new store.  Timestamps are modelled as natural numbers counting
milliseconds.  External collaborators (bcrypt comparison, random identifier
generation, random AES initialisation vectors) are passed in as explicit
parameters, mirroring the nondeterminism of the real calls.
-/

namespace StoyShare

/-- Millisecond timestamps, as produced by `Date.now()` in the source. -/
abbrev Time := Nat

/-- Seven days in milliseconds: `7 * 24 * 60 * 60 * 1000` in
`SoftDeleteService.markForDeletion`. -/
def sevenDaysMs : Nat := 7 * 24 * 60 * 60 * 1000

/-- Result of `EncryptionService.encryptSimple`: the source returns the string
`iv.toString("hex") + ":" + encrypted` where `iv` is a fresh random 16-byte
value and `encrypted` is the AES-256-CBC encryption of the plaintext under the
fixed server key.  Two ciphertexts are equal exactly when both the IV and the
encrypted body coincide; since the key is fixed, the body is a function of the
plaintext, which we model by storing the plaintext itself as the body. -/
structure Ciphertext where
  iv : String
  body : String
  deriving Repr, DecidableEq

/-- Embedding of `EncryptionService.encryptSimple`, with the random IV made an
explicit argument. -/
def encryptSimple (iv : String) (text : String) : Ciphertext :=
  { iv := iv, body := text }

/-- A `Photo` vertex (class `Photo`): the columns read or written by the
embedded operations.  `rid` is the storage-internal record id, `photoId` the
surrogate UUID, `shareToken` the public unguessable identifier. -/
structure Photo where
  rid : String
  photoId : String
  photographerId : String
  shareToken : String
  isActive : Bool
  deletedAt : Option Time
  scheduledDeletionDate : Option Time
  deletionReason : Option String
  photoDataB64 : String
  uploadedAt : Time
  deriving Repr, DecidableEq

/-- A `PhotoCollection` vertex. -/
structure PhotoCollection where
  rid : String
  collectionId : String
  photographerId : String
  name : String
  isActive : Bool
  deletedAt : Option Time
  scheduledDeletionDate : Option Time
  deletionReason : Option String
  autoDeleteAt : Option Time
  createdAt : Time
  updatedAt : Time
  deriving Repr, DecidableEq

/-- A `User` vertex (admin accounts), as probed by
`AuthService.authenticateUser`. -/
structure UserRow where
  rid : String
  username : String
  password : String
  isActive : Bool
  lastLogin : Option Time
  deriving Repr, DecidableEq

/-- A `Photographer` vertex, restricted to the columns the embedded
operations touch. -/
structure Photographer where
  rid : String
  photographerId : String
  username : String
  password : String
  isActive : Bool
  lastLogin : Option Time
  deriving Repr, DecidableEq

/-- A `Client` vertex. -/
structure Client where
  rid : String
  clientId : String
  username : String
  photographerId : String
  password : String
  isActive : Bool
  lastLogin : Option Time
  clientName : String
  encryptedEmail : Option Ciphertext
  deriving Repr, DecidableEq

/-- A `Guest` vertex as created by `ClientService.createGuest`. -/
structure Guest where
  rid : String
  guestId : String
  clientId : String
  username : String
  encryptedEmail : Ciphertext
  password : String
  guestName : String
  expiresAt : Time
  isActive : Bool
  lastLogin : Option Time
  mustChangePassword : Bool
  deriving Repr, DecidableEq

/-- A `PhotoAccess` edge record.  Two writers use incompatible shapes: the
photographer share path does `INSERT INTO PhotoAccess SET photoId, userId,
userType, accessType, grantedBy, grantedAt, isActive` (field based, no graph
endpoints), while the guest share path does `CREATE EDGE PhotoAccess FROM
photo TO guest SET accessType, grantedAt, expiresAt, isActive` (endpoint
based).  Fields a writer does not set are `none`; SQL comparisons against an
absent field are false. -/
structure PhotoAccessEdge where
  outV : Option String
  inV : Option String
  photoId : Option String
  userId : Option String
  userType : Option String
  accessType : String
  grantedAt : Time
  grantedBy : Option String
  isActive : Option Bool
  expiresAt : Option Time
  deriving Repr, DecidableEq

/-- A `CollectionAccess` edge from a `PhotoCollection` vertex (`outV`) to a
`Client` vertex (`inV`).  `PhotoCollectionService.shareCollection` sets only
`accessType` and `grantedAt`; `isActive` and `expiresAt` stay absent there but
may be present on rows written by other tooling, so they are optional. -/
structure CollectionAccessEdge where
  outV : String
  inV : String
  accessType : String
  grantedAt : Time
  isActive : Option Bool
  expiresAt : Option Time
  deriving Repr, DecidableEq

/-- A `CollectionPhoto` membership edge from a `PhotoCollection` (`outV`) to a
`Photo` (`inV`); the upload path sets only `createdAt`. -/
structure CollectionPhotoEdge where
  outV : String
  inV : String
  createdAt : Time
  deriving Repr, DecidableEq

/-- A `ClientGuests` guardianship edge from a `Client` (`outV`) to a `Guest`
(`inV`). -/
structure ClientGuestsEdge where
  outV : String
  inV : String
  createdAt : Time
  deriving Repr, DecidableEq

/-- A `RefreshToken` vertex as written by
`RefreshTokenService.storeRefreshToken`.  `isRevoked` is written as `false` at
creation and never consulted again: revocation deletes the row. -/
structure RefreshTokenRow where
  token : String
  sessionId : String
  userId : String
  userRole : String
  expiresAt : Time
  createdAt : Time
  isRevoked : Bool
  deriving Repr, DecidableEq

/-- The durable store: one list per vertex or edge class used by the embedded
operations. -/
structure Store where
  users : List UserRow
  photographers : List Photographer
  clients : List Client
  guests : List Guest
  photos : List Photo
  collections : List PhotoCollection
  photoAccess : List PhotoAccessEdge
  collectionAccess : List CollectionAccessEdge
  collectionPhotos : List CollectionPhotoEdge
  clientGuests : List ClientGuestsEdge
  refreshTokens : List RefreshTokenRow
  deriving Repr, DecidableEq

/-! ## SoftDeleteService -/

/-- One row of an arbitrary deletable entity class as seen by
`SoftDeleteService`: the surrogate-id column used in the `WHERE` clause
(`photoId`, `collectionId`, `photographerId`, `clientId`, `guestId` or `id`
depending on the class) plus the four soft-delete columns the `UPDATE`
touches; every other column is untouched and abstracted as `payload`. -/
structure SDRow where
  idVal : String
  isActive : Bool
  deletedAt : Option Time
  scheduledDeletionDate : Option Time
  deletionReason : Option String
  payload : String
  deriving Repr, DecidableEq

/-- Embedding of `SoftDeleteService.markForDeletion`: the SQL
`UPDATE <class> SET deletedAt = :deletedAt, scheduledDeletionDate =
:scheduledDate, deletionReason = :reason, isActive = false WHERE <idField> =
:entityId` with `scheduledDate = now + 7 days`. -/
def markForDeletion (rows : List SDRow) (entityId reason : String) (now : Time) :
    List SDRow :=
  rows.map fun r =>
    if r.idVal == entityId then
      { r with
        deletedAt := some now
        scheduledDeletionDate := some (now + sevenDaysMs)
        deletionReason := some reason
        isActive := false }
    else r

/-- Embedding of `SoftDeleteService.restoreDeleted`: the SQL
`UPDATE <class> SET deletedAt = null, scheduledDeletionDate = null,
deletionReason = null, isActive = true WHERE <idField> = :entityId`. -/
def restoreDeleted (rows : List SDRow) (entityId : String) : List SDRow :=
  rows.map fun r =>
    if r.idVal == entityId then
      { r with
        deletedAt := none
        scheduledDeletionDate := none
        deletionReason := none
        isActive := true }
    else r

/-- The `markForDeletion` UPDATE specialised to the `Photo` class (the
auto-detected `WHERE` field is `photoId`). -/
def markForDeletionPhoto (s : Store) (photoId reason : String) (now : Time) :
    Store :=
  { s with
    photos := s.photos.map fun p =>
      if p.photoId == photoId then
        { p with
          deletedAt := some now
          scheduledDeletionDate := some (now + sevenDaysMs)
          deletionReason := some reason
          isActive := false }
      else p }

/-- The `markForDeletion` UPDATE specialised to the `PhotoCollection` class
(the auto-detected `WHERE` field is `collectionId`). -/
def markForDeletionCollection (s : Store) (collectionId reason : String)
    (now : Time) : Store :=
  { s with
    collections := s.collections.map fun c =>
      if c.collectionId == collectionId then
        { c with
          deletedAt := some now
          scheduledDeletionDate := some (now + sevenDaysMs)
          deletionReason := some reason
          isActive := false }
      else c }

/-- The `restoreDeleted` UPDATE specialised to the `Photo` class. -/
def restoreDeletedPhoto (s : Store) (photoId : String) : Store :=
  { s with
    photos := s.photos.map fun p =>
      if p.photoId == photoId then
        { p with
          deletedAt := none
          scheduledDeletionDate := none
          deletionReason := none
          isActive := true }
      else p }

/-- The `restoreDeleted` UPDATE specialised to the `PhotoCollection` class. -/
def restoreDeletedCollection (s : Store) (collectionId : String) : Store :=
  { s with
    collections := s.collections.map fun c =>
      if c.collectionId == collectionId then
        { c with
          deletedAt := none
          scheduledDeletionDate := none
          deletionReason := none
          isActive := true }
      else c }

/-- Record ids of the `PhotoCollection` vertices matching a surrogate
`collectionId`, as produced by the subquery
`SELECT FROM PhotoCollection WHERE collectionId = :collectionId`. -/
def collectionRidsById (s : Store) (collectionId : String) : List String :=
  (s.collections.filter fun c => c.collectionId == collectionId).map (fun c => c.rid)

/-- Record ids of the `Client` vertices matching a username, as produced by
the subquery `SELECT FROM Client WHERE username = :username`. -/
def clientRidsByUsername (s : Store) (username : String) : List String :=
  (s.clients.filter fun c => c.username == username).map (fun c => c.rid)

/-- Record ids of the `Guest` vertices matching a username, as produced by
the subquery `SELECT FROM Guest WHERE username = :username`. -/
def guestRidsByUsername (s : Store) (username : String) : List String :=
  (s.guests.filter fun g => g.username == username).map (fun g => g.rid)

/-- The photo record ids reachable from a collection by the pattern
`SELECT expand(in) FROM CollectionPhoto WHERE out IN
(SELECT FROM PhotoCollection WHERE collectionId = :collectionId)`. -/
def collectionPhotoRids (s : Store) (collectionId : String) : List String :=
  (s.collectionPhotos.filter fun e =>
      (collectionRidsById s collectionId).contains e.outV).map (fun e => e.inV)

/-! ## Collection deletion and the admin restore route -/

/-- Outcome of `PhotoCollectionService.deleteCollection`. -/
inductive DeleteCollectionResult
  | notFound
  | ok (photosDeleted : Nat)
  deriving Repr, DecidableEq

/-- Embedding of `PhotoCollectionService.deleteCollection`: after the
ownership check it soft-deletes every photo reachable via `CollectionPhoto`
(reason `Deleted with collection: <id>`), then the collection itself (reason
`Deleted by photographer`). -/
def deleteCollection (s : Store) (photographerId collectionId : String)
    (now : Time) : DeleteCollectionResult × Store :=
  if (s.collections.filter fun c =>
      c.collectionId == collectionId && c.photographerId == photographerId).isEmpty
  then (.notFound, s)
  else
    let victims := s.photos.filter fun p =>
      (collectionPhotoRids s collectionId).contains p.rid
    let s1 := victims.foldl
      (fun acc p =>
        markForDeletionPhoto acc p.photoId
          ("Deleted with collection: " ++ collectionId) now) s
    (.ok victims.length,
     markForDeletionCollection s1 collectionId "Deleted by photographer" now)

/-- Embedding of the `PhotoCollection` branch of the admin `POST /restore`
route: it collects every photo of the collection whose
`scheduledDeletionDate` is set — regardless of why it was set — restores each
of them, then restores the collection.  Returns the new store and the number
of photos restored. -/
def adminRestoreCollection (s : Store) (collectionId : String) : Store × Nat :=
  let victims := s.photos.filter fun p =>
    p.scheduledDeletionDate.isSome &&
      (collectionPhotoRids s collectionId).contains p.rid
  let s1 := victims.foldl (fun acc p => restoreDeletedPhoto acc p.photoId) s
  (restoreDeletedCollection s1 collectionId, victims.length)

/-! ## Photo upload (EnhancedPhotoService.uploadPhoto) -/

/-- The per-file data of an upload request together with the freshly generated
identifiers (`uuidv4`, `crypto.randomBytes`), which are nondeterministic in
the source and therefore explicit here. -/
structure UploadFile where
  rid : String
  photoId : String
  shareToken : String
  dataB64 : String
  deriving Repr, DecidableEq

/-- The expiry window applied by `uploadPhoto`: `expiryMinutes` minutes when
positive, otherwise the 30-second testing default. -/
def graceWindowMs (expiryMinutes : Nat) : Nat :=
  if expiryMinutes > 0 then expiryMinutes * 60 * 1000 else 30 * 1000

/-- The `Photo` row inserted for one uploaded file (`INSERT INTO Photo SET
... isActive = true ...`). -/
def insertedPhoto (photographerId : String) (f : UploadFile) (now : Time) :
    Photo :=
  { rid := f.rid
    photoId := f.photoId
    photographerId := photographerId
    shareToken := f.shareToken
    isActive := true
    deletedAt := none
    scheduledDeletionDate := none
    deletionReason := none
    photoDataB64 := f.dataB64
    uploadedAt := now }

/-- The edge-creation subquery `SELECT FROM PhotoCollection WHERE
collectionId = :collectionId AND isActive = true LIMIT 1`. -/
def uploadFromSel (s : Store) (collectionId : String) : Option PhotoCollection :=
  (s.collections.filter fun c => c.collectionId == collectionId && c.isActive).head?

/-- The edge-creation subquery `SELECT FROM Photo WHERE shareToken =
:shareToken AND isActive = true LIMIT 1`. -/
def uploadToSel (s : Store) (shareToken : String) : Option Photo :=
  (s.photos.filter fun p => p.shareToken == shareToken && p.isActive).head?

/-- One iteration of the file loop in `uploadPhoto`: insert the `Photo` row,
then try to `CREATE EDGE CollectionPhoto FROM (SELECT FROM PhotoCollection
WHERE collectionId = :collectionId AND isActive = true LIMIT 1) TO (SELECT
FROM Photo WHERE shareToken = :shareToken AND isActive = true LIMIT 1)`.
When either subquery is empty the edge creation throws, the file is recorded
as an error and the already-inserted photo row remains; the Bool reports link
success. -/
def uploadOneFile (s : Store) (photographerId collectionId : String)
    (f : UploadFile) (now : Time) : Store × Bool :=
  let s1 := { s with photos := s.photos ++ [insertedPhoto photographerId f now] }
  match uploadFromSel s1 collectionId, uploadToSel s1 f.shareToken with
  | some c, some p =>
    ({ s1 with collectionPhotos :=
        s1.collectionPhotos ++ [{ outV := c.rid, inV := p.rid, createdAt := now }] },
     true)
  | _, _ => (s1, false)

/-- The fold step of the `uploadPhoto` file loop, accumulating the store and
the count of successfully uploaded photos. -/
def uploadStep (photographerId collectionId : String) (now : Time)
    (acc : Store × Nat) (f : UploadFile) : Store × Nat :=
  let r := uploadOneFile acc.1 photographerId collectionId f now
  (r.1, acc.2 + (if r.2 then 1 else 0))

/-- Embedding of `EnhancedPhotoService.uploadPhoto` after the role and
collection-presence checks: process every file, and if at least one photo was
uploaded successfully run `UPDATE PhotoCollection SET autoDeleteAt =
:autoDeleteAt, updatedAt = sysdate() WHERE collectionId = :collectionId` with
`autoDeleteAt = now + graceWindowMs expiryMinutes` — unconditionally
overwriting any previous value.  Returns the new store and the number of
successfully linked photos. -/
def uploadPhoto (s : Store) (photographerId collectionId : String)
    (files : List UploadFile) (expiryMinutes : Nat) (now : Time) :
    Store × Nat :=
  let done := files.foldl (uploadStep photographerId collectionId now) (s, 0)
  if done.2 > 0 then
    ({ done.1 with collections := done.1.collections.map fun c =>
        if c.collectionId == collectionId then
          { c with autoDeleteAt := some (now + graceWindowMs expiryMinutes)
                   updatedAt := now }
        else c },
     done.2)
  else done

/-! ## Read paths consulting permission edges -/

/-- The client/guest branch of `EnhancedPhotoService.getPhoto`: the join
`SELECT ... FROM Photo p, PhotoAccess pa WHERE p.photoId = :photoId AND
pa.photoId = :photoId AND pa.userId = :userId AND pa.isActive = true AND
p.isActive = true AND p.scheduledDeletionDate IS NULL`; the photo data is
returned when the join is nonempty, otherwise the route answers 404.  Note
the query never mentions `pa.expiresAt`. -/
def getPhotoClientGuest (s : Store) (userId photoId : String) :
    Option String :=
  let ps := s.photos.filter fun p =>
    p.photoId == photoId && p.isActive && p.scheduledDeletionDate == none
  let pas := s.photoAccess.filter fun pa =>
    pa.photoId == some photoId && pa.userId == some userId &&
      pa.isActive == some true
  match ps, pas with
  | p :: _, _ :: _ => some p.photoDataB64
  | _, _ => none

/-- Outcome of `PhotoCollectionService.getClientCollectionPhotos`. -/
inductive CollectionPhotosResult
  | notFound
  | forbidden
  | ok (photos : List Photo)
  deriving Repr, DecidableEq

/-- Embedding of `PhotoCollectionService.getClientCollectionPhotos`: the
collection must exist, be active and unscheduled; the access check is
`SELECT FROM CollectionAccess WHERE out IN (collections with this id) AND in
IN (clients with this username)` — mere edge existence, with no condition on
the edge fields; the photo list filters only on
`in.scheduledDeletionDate IS NULL`. -/
def getClientCollectionPhotos (s : Store) (clientUsername collectionId : String) :
    CollectionPhotosResult :=
  if (s.collections.filter fun c =>
      c.collectionId == collectionId && c.isActive &&
        c.scheduledDeletionDate == none).isEmpty
  then .notFound
  else if (s.collectionAccess.filter fun e =>
      (collectionRidsById s collectionId).contains e.outV &&
        (clientRidsByUsername s clientUsername).contains e.inV).isEmpty
  then .forbidden
  else
    .ok (s.photos.filter fun p =>
      (collectionPhotoRids s collectionId).contains p.rid &&
        p.scheduledDeletionDate == none)

/-! ## Grant operations -/

/-- Outcome of `PhotoCollectionService.shareCollection`. -/
inductive ShareCollectionResult
  | collectionNotFound
  | clientNotFound
  | alreadyShared
  | ok
  deriving Repr, DecidableEq

/-- Embedding of `PhotoCollectionService.shareCollection`: verify the
collection (owned, active, unscheduled) and the client (owned by the same
photographer, active); then, if any `CollectionAccess` edge already joins the
pair, answer 400 `Collection is already shared with this client` without
touching the store; otherwise create the edge with `accessType = view` and
`grantedAt = sysdate()` only. -/
def shareCollection (s : Store) (photographerId collectionId clientUsername : String)
    (now : Time) : ShareCollectionResult × Store :=
  if (s.collections.filter fun c =>
      c.collectionId == collectionId && c.photographerId == photographerId &&
        c.isActive && c.scheduledDeletionDate == none).isEmpty
  then (.collectionNotFound, s)
  else if (s.clients.filter fun c =>
      c.username == clientUsername && c.photographerId == photographerId &&
        c.isActive).isEmpty
  then (.clientNotFound, s)
  else if !(s.collectionAccess.filter fun e =>
      (collectionRidsById s collectionId).contains e.outV &&
        (clientRidsByUsername s clientUsername).contains e.inV).isEmpty
  then (.alreadyShared, s)
  else
    match (collectionRidsById s collectionId).head?,
          (clientRidsByUsername s clientUsername).head? with
    | some cr, some cl =>
      (.ok,
       { s with collectionAccess := s.collectionAccess ++
          [{ outV := cr, inV := cl, accessType := "view", grantedAt := now,
             isActive := none, expiresAt := none }] })
    | _, _ => (.ok, s)

/-- Outcome of `PhotographerService.sharePhotosWithClient`. -/
inductive SharePhotosResult
  | clientNotFound
  | photosNotFound
  | ok (sharedCount : Nat)
  deriving Repr, DecidableEq

/-- The `INSERT INTO PhotoAccess` performed for one photo id inside the share
loop. -/
def sharePhotosStep (photographerId clientRid accessType : String) (now : Time)
    (acc : Store) (pid : String) : Store :=
  { acc with photoAccess := acc.photoAccess ++
      [{ outV := none, inV := none, photoId := some pid,
         userId := some clientRid, userType := some "client",
         accessType := accessType, grantedAt := now,
         grantedBy := some photographerId, isActive := some true,
         expiresAt := none }] }

/-- Embedding of `PhotographerService.sharePhotosWithClient`: after the client
and photo ownership checks, each photo id gets an
`INSERT INTO PhotoAccess SET photoId, userId, userType, accessType,
grantedBy, grantedAt, isActive = true`.  The source wraps the insert in a
catch that updates the existing row on a duplicate-key error, but neither
`scripts/initDb.js` nor `migrations/000-wipe-and-rebuild.js` declares any
unique index on `PhotoAccess`, so the insert never raises such an error and
is modelled as an unconditional append. -/
def sharePhotosWithClient (s : Store) (photographerId clientRid : String)
    (photoRids : List String) (accessType : String) (now : Time) :
    SharePhotosResult × Store :=
  if (s.clients.filter fun c =>
      c.rid == clientRid && c.photographerId == photographerId).isEmpty
  then (.clientNotFound, s)
  else if (s.photos.filter fun p =>
      photoRids.contains p.rid && p.photographerId == photographerId &&
        p.isActive).length != photoRids.length
  then (.photosNotFound, s)
  else
    (.ok photoRids.length,
     photoRids.foldl (sharePhotosStep photographerId clientRid accessType now) s)

/-! ## Guest creation and guest photo sharing (ClientService.createGuest) -/

/-- Outcome of `ClientService.createGuest`. -/
inductive CreateGuestResult
  | photosNotFound (found requested : Nat)
  | serverError
  | ok (guestUsername : String) (sharedCount : Nat)
  deriving Repr, DecidableEq

/-- The freshly generated values consumed by one `createGuest` call: the two
random AES IVs used by the two separate `encryptSimple(email)` invocations
(one for the duplicate lookup, one for the stored row) and the generated
credentials and ids of the guest created when the lookup finds nothing. -/
structure GuestFresh where
  ivCheck : String
  ivStore : String
  username : String
  passwordHash : String
  guestId : String
  rid : String
  deriving Repr, DecidableEq

/-- Embedding of `ClientService.createGuest` (alias: the `shareGuestPhotos`
operation of the spec), after the role and validation checks.

1. Resolve the supplied share tokens against active photos; when the count of
   resolved photos differs from the count of supplied tokens, answer 403
   before any mutation.
2. Look for an existing active guest whose `encryptedEmail` equals a *fresh*
   encryption of the request email and that hangs off this client via a
   `ClientGuests` edge; update its `expiresAt` if found, otherwise insert a
   new `Guest` vertex plus a `ClientGuests` edge.
3. `DELETE EDGE PhotoAccess WHERE in IN (SELECT FROM Guest WHERE username =
   :guestUsername)`, then create one `PhotoAccess` edge per resolved photo
   with `expiresAt = now + expirationDays` and `isActive = true`. -/
def createGuest (s : Store) (clientUsername clientUserId email guestName : String)
    (photoIds : List String) (expirationDays : Nat) (fresh : GuestFresh)
    (now : Time) : CreateGuestResult × Store :=
  let accessiblePhotos := s.photos.filter fun p =>
    photoIds.contains p.shareToken && p.isActive
  if accessiblePhotos.length != photoIds.length then
    (.photosNotFound accessiblePhotos.length photoIds.length, s)
  else
    let encryptedEmailToCheck := encryptSimple fresh.ivCheck email
    let existingGuest := s.guests.filter fun g =>
      g.encryptedEmail == encryptedEmailToCheck &&
        (s.clientGuests.any fun e =>
          e.inV == g.rid &&
            (s.clients.any fun c => c.rid == e.outV && c.username == clientUsername)) &&
        g.isActive
    let expirationDate := now + expirationDays * 24 * 60 * 60 * 1000
    let afterGuest : Option (String × Store) :=
      match existingGuest with
      | g :: _ =>
        some (g.username,
          { s with guests := s.guests.map fun h =>
              if h.username == g.username then { h with expiresAt := expirationDate }
              else h })
      | [] =>
        let newGuest : Guest :=
          { rid := fresh.rid
            guestId := fresh.guestId
            clientId := clientUserId
            username := fresh.username
            encryptedEmail := encryptSimple fresh.ivStore email
            password := fresh.passwordHash
            guestName := guestName
            expiresAt := expirationDate
            isActive := true
            lastLogin := none
            mustChangePassword := true }
        let s1 := { s with guests := s.guests ++ [newGuest] }
        match (s1.clients.filter fun c => c.username == clientUsername).head?,
              (s1.guests.filter fun g => g.username == fresh.username).head? with
        | some c, some g =>
          some (fresh.username,
            { s1 with clientGuests := s1.clientGuests ++
                [{ outV := c.rid, inV := g.rid, createdAt := now }] })
        | _, _ => none
    match afterGuest with
    | none => (.serverError, { s with guests := s.guests ++
        [{ rid := fresh.rid, guestId := fresh.guestId, clientId := clientUserId,
           username := fresh.username,
           encryptedEmail := encryptSimple fresh.ivStore email,
           password := fresh.passwordHash, guestName := guestName,
           expiresAt := expirationDate, isActive := true, lastLogin := none,
           mustChangePassword := true }] })
    | some gs =>
      let guestUsername := gs.1
      let s2 := gs.2
      let s3 := { s2 with photoAccess := s2.photoAccess.filter fun pa =>
          !(match pa.inV with
            | some v => (guestRidsByUsername s2 guestUsername).contains v
            | none => false) }
      let shareTokens := accessiblePhotos.map fun p => p.shareToken
      let s4 := shareTokens.foldl
        (fun acc tok =>
          match (acc.photos.filter fun p => p.shareToken == tok).head?,
                (acc.guests.filter fun g => g.username == guestUsername).head? with
          | some p, some g =>
            { acc with photoAccess := acc.photoAccess ++
                [{ outV := some p.rid, inV := some g.rid, photoId := none,
                   userId := none, userType := none, accessType := "view",
                   grantedAt := now, grantedBy := none, isActive := some true,
                   expiresAt := some expirationDate }] }
          | _, _ => acc)
        s3
      (.ok guestUsername shareTokens.length, s4)

/-! ## Guest login (GuestService.authenticateGuest) -/

/-- Outcome of `GuestService.authenticateGuest`. -/
inductive GuestAuthResult
  | authFailed (message : String)
  | ok (username : String) (lastLogin : Time)
  deriving Repr, DecidableEq

/-- Embedding of `GuestService.authenticateGuest`: the lookup is
`SELECT FROM Guest WHERE username = :username AND isActive = true AND
expiresAt > date(:now)`; an empty result — unknown username, inactive guest
or expired guest alike — throws `Invalid credentials or access expired`.
Only after a successful bcrypt comparison is `lastLogin` updated.  The bcrypt
comparison is passed in as `bcryptCompare`. -/
def authenticateGuest (s : Store) (username password : String)
    (bcryptCompare : String → String → Bool) (now : Time) :
    GuestAuthResult × Store :=
  match s.guests.filter fun g =>
      g.username == username && g.isActive && now < g.expiresAt with
  | [] => (.authFailed "Invalid credentials or access expired", s)
  | g :: _ =>
    if !(bcryptCompare password g.password) then
      (.authFailed "Invalid credentials", s)
    else
      (.ok g.username now,
       { s with guests := s.guests.map fun h =>
          if h.rid == g.rid then { h with lastLogin := some now } else h })

/-! ## Credential verification (AuthService.authenticateUser) -/

/-- The candidate found by the fixed-priority probe of
`AuthService.authenticateUser`. -/
structure FoundUser where
  userClass : String
  rid : String
  username : String
  password : String
  isActive : Bool
  deriving Repr, DecidableEq

/-- The probe order of `authenticateUser`: `User`, then `Photographer`, then
`Client`.  The `Guest` probe in the source is commented out (guest
authentication through this path is disabled). -/
def probeUser (s : Store) (username : String) : Option FoundUser :=
  match s.users.find? fun u => u.username == username with
  | some u => some ⟨"User", u.rid, u.username, u.password, u.isActive⟩
  | none =>
    match s.photographers.find? fun u => u.username == username with
    | some u => some ⟨"Photographer", u.rid, u.username, u.password, u.isActive⟩
    | none =>
      match s.clients.find? fun u => u.username == username with
      | some u => some ⟨"Client", u.rid, u.username, u.password, u.isActive⟩
      | none => none

/-- Outcome of `AuthService.authenticateUser`: either an error message or the
authenticated principal with the password column stripped. -/
inductive AuthUserResult
  | err (message : String)
  | ok (rid username userClass : String)
  deriving Repr, DecidableEq

/-- Whether an `AuthUserResult` is an error. -/
def AuthUserResult.isErr : AuthUserResult → Bool
  | .err _ => true
  | .ok _ _ _ => false

/-- The `UPDATE <class> SET lastLogin = :lastLogin WHERE @rid = :rid` write
performed after a successful password check. -/
def updateLastLogin (s : Store) (userClass rid : String) (now : Time) : Store :=
  if userClass == "User" then
    { s with users := s.users.map fun u =>
        if u.rid == rid then { u with lastLogin := some now } else u }
  else if userClass == "Photographer" then
    { s with photographers := s.photographers.map fun u =>
        if u.rid == rid then { u with lastLogin := some now } else u }
  else
    { s with clients := s.clients.map fun u =>
        if u.rid == rid then { u with lastLogin := some now } else u }

/-- Embedding of `AuthService.authenticateUser`.  The probe, the
`isActive === false` check and the bcrypt comparison happen in that order;
the `lastLogin` UPDATE runs only after a successful comparison and has no
surrounding try/catch, so a storage failure there — modelled by
`lastLoginWriteOk = false` — propagates out of the whole call.  (The guest
expiry branch of the source is dead code, since the guest probe is
disabled.) -/
def authenticateUser (s : Store) (username password : String)
    (bcryptCompare : String → String → Bool) (lastLoginWriteOk : Bool)
    (now : Time) : AuthUserResult × Store :=
  match probeUser s username with
  | none => (.err "Invalid credentials", s)
  | some f =>
    if f.isActive == false then (.err "Account is disabled", s)
    else if !(bcryptCompare password f.password) then
      (.err "Invalid credentials", s)
    else if !lastLoginWriteOk then
      (.err "lastLogin update failed", s)
    else
      (.ok f.rid f.username f.userClass, updateLastLogin s f.userClass f.rid now)

/-! ## Session refresh and revocation -/

/-- Embedding of `RefreshTokenService.validateSessionId`:
`SELECT * FROM RefreshToken WHERE sessionId = :sessionId AND expiresAt >
sysdate()`, returning the first row or null.  Presence in the store is
definitionally validity; the vestigial `isRevoked` column is never read. -/
def validateSessionId (s : Store) (sessionId : String) (now : Time) :
    Option RefreshTokenRow :=
  (s.refreshTokens.filter fun r =>
    r.sessionId == sessionId && now < r.expiresAt).head?

/-- Embedding of `RefreshTokenService.revokeSession`:
`DELETE VERTEX RefreshToken WHERE sessionId = :sessionId`. -/
def revokeSession (s : Store) (sessionId : String) : Store :=
  { s with refreshTokens :=
      s.refreshTokens.filter fun r => !(r.sessionId == sessionId) }

/-- The payload of the freshly signed access token produced by a successful
refresh. -/
structure TokenPayload where
  userId : String
  userRole : String
  deriving Repr, DecidableEq

/-- Outcome of `AuthService.refreshToken`. -/
inductive RefreshResult
  | noSessionCookie
  | invalidOrExpired
  | ok (payload : TokenPayload)
  deriving Repr, DecidableEq

/-- Embedding of `AuthService.refreshToken` (without the env-gated session
rotation): a missing cookie is a 401; a `validateSessionId` miss is a 403
`Invalid or expired session`; otherwise a new access token is generated from
the stored row (the principal-field re-fetch cannot fail the call: a missing
user row just yields empty denormalised fields). -/
def refreshToken (s : Store) (sessionCookie : Option String) (now : Time) :
    RefreshResult :=
  match sessionCookie with
  | none => .noSessionCookie
  | some sid =>
    match validateSessionId s sid now with
    | none => .invalidOrExpired
    | some row => .ok { userId := row.userId, userRole := row.userRole }

/-! ## Concrete example data for witnesses and counterexamples -/

/-- The store with no rows at all. -/
def emptyStore : Store :=
  { users := [], photographers := [], clients := [], guests := [], photos := [],
    collections := [], photoAccess := [], collectionAccess := [],
    collectionPhotos := [], clientGuests := [], refreshTokens := [] }

/-- Example row for the C9 witness. -/
def sdRowX : SDRow :=
  { idVal := "x", isActive := true, deletedAt := none,
    scheduledDeletionDate := none, deletionReason := none, payload := "pay" }

/-- Concrete store for the C8 witness: one live session. -/
def c8Store : Store :=
  { emptyStore with
    refreshTokens := [{ token := "tk", sessionId := "sess1", userId := "#u1",
                        userRole := "client", expiresAt := 1000, createdAt := 0,
                        isRevoked := false }] }

/-- The photo of the C1 counterexample store. -/
def c1Photo : Photo := {
  rid := "#p1", photoId := "p1", photographerId := "ph1", shareToken := "t1",
  isActive := true, deletedAt := none, scheduledDeletionDate := none,
  deletionReason := none, photoDataB64 := "DATA", uploadedAt := 0 }

/-- Store for the C1 counterexample: the `CollectionAccess` edge is stale
(`isActive = some false`), and the `PhotoAccess` row is stale by expiry
(`expiresAt = some 5`, read at time 10) while still `isActive = some true`. -/
def c1Store : Store := { emptyStore with
  photos := [c1Photo],
  collections := [{
    rid := "#c1", collectionId := "c1", photographerId := "ph1", name := "W",
    isActive := true, deletedAt := none, scheduledDeletionDate := none,
    deletionReason := none, autoDeleteAt := none, createdAt := 0, updatedAt := 0 }],
  clients := [{
    rid := "#a1", clientId := "ca1", username := "alice", photographerId := "ph1",
    password := "pw", isActive := true, lastLogin := none, clientName := "Alice",
    encryptedEmail := none }],
  collectionAccess := [{
    outV := "#c1", inV := "#a1", accessType := "view", grantedAt := 0,
    isActive := some false, expiresAt := none }],
  collectionPhotos := [{ outV := "#c1", inV := "#p1", createdAt := 0 }],
  photoAccess := [{
    outV := none, inV := none, photoId := some "p1", userId := some "cg1",
    userType := some "client", accessType := "view", grantedAt := 0,
    grantedBy := some "ph1", isActive := some true, expiresAt := some 5 }] }

/-- Initial store of the C2 counterexample: collection `cW` containing photos
`pa` and `pb`, everything active. -/
def c2Store0 : Store := { emptyStore with
  collections := [{
    rid := "#c", collectionId := "cW", photographerId := "ph1", name := "Wedding",
    isActive := true, deletedAt := none, scheduledDeletionDate := none,
    deletionReason := none, autoDeleteAt := none, createdAt := 0, updatedAt := 0 }],
  photos := [{
    rid := "#pa", photoId := "pa", photographerId := "ph1", shareToken := "ta",
    isActive := true, deletedAt := none, scheduledDeletionDate := none,
    deletionReason := none, photoDataB64 := "A", uploadedAt := 0 }, {
    rid := "#pb", photoId := "pb", photographerId := "ph1", shareToken := "tb",
    isActive := true, deletedAt := none, scheduledDeletionDate := none,
    deletionReason := none, photoDataB64 := "B", uploadedAt := 0 }],
  collectionPhotos := [{ outV := "#c", inV := "#pa", createdAt := 0 },
    { outV := "#c", inV := "#pb", createdAt := 0 }] }

/-- C2 step 1: photo `pb` is independently deleted by the photographer at
time 100, before any collection cascade. -/
def c2Store1 : Store := markForDeletionPhoto c2Store0 "pb" "Deleted by photographer" 100

/-- C2 step 2: the collection is deleted at time 200, cascading over its
photos. -/
def c2Store2 : Store := (deleteCollection c2Store1 "ph1" "cW" 200).2

/-- C2 step 3: the admin restores the collection. -/
def c2Store3 : Store := (adminRestoreCollection c2Store2 "cW").1

/-- Upload request data for the C3 counterexample. -/
def c3File1 : UploadFile := { rid := "#u1", photoId := "u1", shareToken := "s1", dataB64 := "d1" }

/-- Second upload request data for the C3 counterexample. -/
def c3File2 : UploadFile := { rid := "#u2", photoId := "u2", shareToken := "s2", dataB64 := "d2" }

/-- Initial store of the C3 counterexample: collection `cW` with
`autoDeleteAt` unset. -/
def c3Store0 : Store := { emptyStore with
  collections := [{
    rid := "#c", collectionId := "cW", photographerId := "ph1", name := "Wedding",
    isActive := true, deletedAt := none, scheduledDeletionDate := none,
    deletionReason := none, autoDeleteAt := none, createdAt := 0, updatedAt := 0 }] }

/-- C3 after the first upload (at time 0, default 30-second window). -/
def c3Store1 : Store := (uploadPhoto c3Store0 "ph1" "cW" [c3File1] 0 0).1

/-- C3 after the second upload (at time 100000). -/
def c3Store2 : Store := (uploadPhoto c3Store1 "ph1" "cW" [c3File2] 0 100000).1

/-- Store for the C4 counterexample: collection `cc` already shared with
client `bob`. -/
def c4Store : Store := { emptyStore with
  collections := [{
    rid := "#c", collectionId := "cc", photographerId := "ph1", name := "C",
    isActive := true, deletedAt := none, scheduledDeletionDate := none,
    deletionReason := none, autoDeleteAt := none, createdAt := 0, updatedAt := 0 }],
  clients := [{
    rid := "#b", clientId := "cb", username := "bob", photographerId := "ph1",
    password := "pw", isActive := true, lastLogin := none, clientName := "Bob",
    encryptedEmail := none }],
  collectionAccess := [{
    outV := "#c", inV := "#b", accessType := "view", grantedAt := 0,
    isActive := none, expiresAt := none }] }

/-- Store for the duplicate-photo-grant half of the C4 counterexample. -/
def c4StoreP : Store := { emptyStore with
  photos := [{
    rid := "#p1", photoId := "p1", photographerId := "ph1", shareToken := "t1",
    isActive := true, deletedAt := none, scheduledDeletionDate := none,
    deletionReason := none, photoDataB64 := "D", uploadedAt := 0 }],
  clients := [{
    rid := "#b", clientId := "cb", username := "bob", photographerId := "ph1",
    password := "pw", isActive := true, lastLogin := none, clientName := "Bob",
    encryptedEmail := none }] }

/-- First photo grant of the C4 counterexample. -/
def c4Share1 : SharePhotosResult × Store :=
  sharePhotosWithClient c4StoreP "ph1" "#b" ["#p1"] "view" 0

/-- Repeated photo grant of the C4 counterexample, for the same pair. -/
def c4Share2 : SharePhotosResult × Store :=
  sharePhotosWithClient c4Share1.2 "ph1" "#b" ["#p1"] "view" 10

/-- Initial store of the C5 scenario: client `alice` and two active photos
with share tokens `t1` and `t2`. -/
def c5Store0 : Store := { emptyStore with
  clients := [{
    rid := "#a", clientId := "ca", username := "alice", photographerId := "ph1",
    password := "pw", isActive := true, lastLogin := none, clientName := "Alice",
    encryptedEmail := none }],
  photos := [{
    rid := "#p1", photoId := "p1", photographerId := "ph1", shareToken := "t1",
    isActive := true, deletedAt := none, scheduledDeletionDate := none,
    deletionReason := none, photoDataB64 := "A", uploadedAt := 0 }, {
    rid := "#p2", photoId := "p2", photographerId := "ph1", shareToken := "t2",
    isActive := true, deletedAt := none, scheduledDeletionDate := none,
    deletionReason := none, photoDataB64 := "B", uploadedAt := 0 }] }

/-- Fresh values consumed by the first `createGuest` call of the C5
scenario (random IVs `iv1`, `iv2`). -/
def c5Fresh1 : GuestFresh := {
  ivCheck := "iv1", ivStore := "iv2", username := "gu1", passwordHash := "h1",
  guestId := "gid1", rid := "#g1" }

/-- Fresh values consumed by the second `createGuest` call of the C5
scenario; its random IVs `iv3`, `iv4` differ from the stored `iv2`, as fresh
16-byte random values do. -/
def c5Fresh2 : GuestFresh := {
  ivCheck := "iv3", ivStore := "iv4", username := "gu2", passwordHash := "h2",
  guestId := "gid2", rid := "#g2" }

/-- First guest share of the C5 scenario: photo set `[t1]` for
`g@x.com`. -/
def c5Call1 : CreateGuestResult × Store :=
  createGuest c5Store0 "alice" "ca" "g@x.com" "Guesty" ["t1"] 7 c5Fresh1 0

/-- Second guest share of the C5 scenario: the disjoint photo set `[t2]` for
the same client and guest email. -/
def c5Call2 : CreateGuestResult × Store :=
  createGuest c5Call1.2 "alice" "ca" "g@x.com" "Guesty" ["t2"] 7 c5Fresh2 1000

/-- Store for the C6 counterexample: one active guest whose access expired at
time 100. -/
def c6Store : Store := { emptyStore with
  guests := [{
    rid := "#g", guestId := "gg", clientId := "ca", username := "gu",
    encryptedEmail := { iv := "i", body := "e" }, password := "hpw",
    guestName := "G", expiresAt := 100, isActive := true, lastLogin := none,
    mustChangePassword := true }] }

/-- The bcrypt comparison used in closed login examples: the stored digest of
the correct password is the literal `hpw`. -/
def cmpHpw : String → String → Bool := fun _ h => h == "hpw"

/-- Store for the C7 counterexample: one active admin account. -/
def c7Store : Store := { emptyStore with
  users := [{
    rid := "#u", username := "admin", password := "hpw", isActive := true,
    lastLogin := none }] }

/-- The field state `restoreDeleted` leaves behind: all four soft-delete
columns cleared and the row active again. -/
abbrev PhotoRestored (q : Photo) : Prop :=
  q.scheduledDeletionDate = none ∧ q.isActive = true ∧
    q.deletedAt = none ∧ q.deletionReason = none

/-- Photo `pb` as it sits in `c2Store2`: independently deleted at time 100,
then re-marked by the collection cascade at time 200. -/
def c2PhotoPbMarked : Photo := {
  rid := "#pb", photoId := "pb", photographerId := "ph1", shareToken := "tb",
  isActive := false, deletedAt := some 200,
  scheduledDeletionDate := some (200 + sevenDaysMs),
  deletionReason := some "Deleted with collection: cW",
  photoDataB64 := "B", uploadedAt := 0 }

/-- Photo `pb` after the admin restore of collection `cW`. -/
def c2PhotoPbRestored : Photo := {
  rid := "#pb", photoId := "pb", photographerId := "ph1", shareToken := "tb",
  isActive := true, deletedAt := none, scheduledDeletionDate := none,
  deletionReason := none, photoDataB64 := "B", uploadedAt := 0 }

/-- The C3 collection before any upload. -/
def c3Col0 : PhotoCollection := {
  rid := "#c", collectionId := "cW", photographerId := "ph1", name := "Wedding",
  isActive := true, deletedAt := none, scheduledDeletionDate := none,
  deletionReason := none, autoDeleteAt := none, createdAt := 0, updatedAt := 0 }

/-- The C3 collection after the first upload at time 0 with the default
30-second window. -/
def c3ColAfter1 : PhotoCollection := { c3Col0 with autoDeleteAt := some 30000 }

/-! ## Shared helper lemmas -/

/-- Every row of `markForDeletion` output that carries the targeted id has the
four soft-delete columns freshly written. -/
theorem markForDeletion_mem (rows : List SDRow) (entityId reason : String)
    (now : Time) (e : SDRow) (he : e ∈ markForDeletion rows entityId reason now)
    (hid : e.idVal = entityId) :
    e.isActive = false ∧ e.deletedAt = some now ∧
      e.scheduledDeletionDate = some (now + sevenDaysMs) ∧
      e.deletionReason = some reason := by
  unfold markForDeletion at he
  obtain ⟨a, _, rfl⟩ := List.mem_map.mp he
  by_cases h : (a.idVal == entityId) = true
  · rw [if_pos h]
    exact ⟨rfl, rfl, rfl, rfl⟩
  · rw [if_neg h] at hid
    exact absurd (beq_iff_eq.mpr hid) h

/-- The `markForDeletion` UPDATE never changes the number of rows. -/
theorem markForDeletion_length (rows : List SDRow) (entityId reason : String)
    (now : Time) :
    (markForDeletion rows entityId reason now).length = rows.length := by
  unfold markForDeletion
  exact List.length_map rows _

/-! ## C9 — idempotent mark-for-deletion -/

/-- C9: for every deletable entity row, `markForDeletion` sets
`isActive = false`, `deletedAt = now`, `scheduledDeletionDate = now + 7d` and
`deletionReason = reason`; a second call is a plain overwrite — it cannot
error (the operation is total), the row count is unchanged (one set of
fields, not two), and the row ends with the second reason and timestamps. -/
theorem c9_markForDeletion_idempotent (rows : List SDRow)
    (entityId reason1 reason2 : String) (n1 n2 : Time) :
    (markForDeletion (markForDeletion rows entityId reason1 n1) entityId reason2 n2).length
        = rows.length ∧
    (∀ e ∈ markForDeletion rows entityId reason1 n1, e.idVal = entityId →
      e.isActive = false ∧ e.deletedAt = some n1 ∧
        e.scheduledDeletionDate = some (n1 + sevenDaysMs) ∧
        e.deletionReason = some reason1) ∧
    (∀ e ∈ markForDeletion (markForDeletion rows entityId reason1 n1) entityId reason2 n2,
      e.idVal = entityId →
      e.isActive = false ∧ e.deletedAt = some n2 ∧
        e.scheduledDeletionDate = some (n2 + sevenDaysMs) ∧
        e.deletionReason = some reason2) := by
  refine ⟨?_, ?_, ?_⟩
  · rw [markForDeletion_length, markForDeletion_length]
  · exact fun e he hid => markForDeletion_mem rows entityId reason1 n1 e he hid
  · exact fun e he hid => markForDeletion_mem _ entityId reason2 n2 e he hid

/-- Witness for C9 at a concrete one-row store: after marking twice with
different reasons, the row count is still one and the surviving row carries
the second reason and timestamps. -/
theorem c9_markForDeletion_idempotent_witness :
    (markForDeletion (markForDeletion [sdRowX] "x" "first" 5) "x" "second" 9).length = 1 ∧
    ({ idVal := "x", isActive := false, deletedAt := some 9,
       scheduledDeletionDate := some (9 + sevenDaysMs),
       deletionReason := some "second", payload := "pay" } : SDRow).isActive = false ∧
    ({ idVal := "x", isActive := false, deletedAt := some 9,
       scheduledDeletionDate := some (9 + sevenDaysMs),
       deletionReason := some "second", payload := "pay" } : SDRow).deletedAt = some 9 ∧
    ({ idVal := "x", isActive := false, deletedAt := some 9,
       scheduledDeletionDate := some (9 + sevenDaysMs),
       deletionReason := some "second", payload := "pay" } : SDRow).scheduledDeletionDate
        = some (9 + sevenDaysMs) ∧
    ({ idVal := "x", isActive := false, deletedAt := some 9,
       scheduledDeletionDate := some (9 + sevenDaysMs),
       deletionReason := some "second", payload := "pay" } : SDRow).deletionReason
        = some "second" := by
  have h := c9_markForDeletion_idempotent [sdRowX] "x" "first" "second" 5 9
  refine ⟨h.1, ?_⟩
  have hmem := h.2.2
      { idVal := "x", isActive := false, deletedAt := some 9,
        scheduledDeletionDate := some (9 + sevenDaysMs),
        deletionReason := some "second", payload := "pay" }
      (by decide) (by decide)
  exact ⟨hmem.1, hmem.2.1, hmem.2.2.1, hmem.2.2.2⟩

/-! ## C8 — refresh fails closed, revocation is deletion -/

/-- A session row produced by `validateSessionId` is a stored, matching and
unexpired row. -/
theorem validateSessionId_some_mem (t : Store) (sid : String) (now : Time)
    (row : RefreshTokenRow) (h : validateSessionId t sid now = some row) :
    row ∈ t.refreshTokens ∧ row.sessionId = sid ∧ now < row.expiresAt := by
  unfold validateSessionId at h
  have hmem : row ∈ t.refreshTokens.filter fun r =>
      r.sessionId == sid && now < r.expiresAt :=
    List.mem_of_mem_head? (Option.mem_def.mpr h)
  rw [List.mem_filter] at hmem
  have h2 := hmem.2
  simp only [Bool.and_eq_true, beq_iff_eq, decide_eq_true_eq] at h2
  exact ⟨hmem.1, h2.1, h2.2⟩

/-- When no stored row matches and is unexpired, `validateSessionId` returns
null. -/
theorem validateSessionId_none (t : Store) (sid : String) (now : Time)
    (h : ¬ ∃ r ∈ t.refreshTokens, r.sessionId = sid ∧ now < r.expiresAt) :
    validateSessionId t sid now = none := by
  unfold validateSessionId
  rw [List.head?_eq_none_iff, List.filter_eq_nil_iff]
  intro r hr
  simp only [Bool.and_eq_true, beq_iff_eq, decide_eq_true_eq, not_and]
  intro h1 h2
  exact h ⟨r, hr, h1, h2⟩

/-- C8: `refreshToken` returns a fresh access token exactly when a
`RefreshToken` row with the presented session id exists and is unexpired;
when no such row exists the call fails with the invalid-or-expired session
error; and since `revokeSession` deletes the row, a revoked session id can
never refresh. -/
theorem c8_refresh_fails_closed (s : Store) (sid : String) (now : Time) :
    ((∃ p, refreshToken s (some sid) now = .ok p) ↔
      ∃ r ∈ s.refreshTokens, r.sessionId = sid ∧ now < r.expiresAt) ∧
    ((¬ ∃ r ∈ s.refreshTokens, r.sessionId = sid ∧ now < r.expiresAt) →
      refreshToken s (some sid) now = .invalidOrExpired) ∧
    refreshToken (revokeSession s sid) (some sid) now = .invalidOrExpired := by
  refine ⟨⟨?_, ?_⟩, ?_, ?_⟩
  · rintro ⟨p, hp⟩
    simp only [refreshToken] at hp
    cases hv : validateSessionId s sid now with
    | none => rw [hv] at hp; cases hp
    | some row =>
      have := validateSessionId_some_mem s sid now row hv
      exact ⟨row, this.1, this.2.1, this.2.2⟩
  · rintro ⟨r, hr, hsid, hexp⟩
    simp only [refreshToken]
    cases hv : validateSessionId s sid now with
    | none =>
      exfalso
      unfold validateSessionId at hv
      rw [List.head?_eq_none_iff, List.filter_eq_nil_iff] at hv
      exact absurd (by simp [hsid, hexp]) (hv r hr)
    | some row => exact ⟨_, rfl⟩
  · intro hno
    simp only [refreshToken]
    cases hv : validateSessionId s sid now with
    | none => rfl
    | some row =>
      exact absurd ⟨row, (validateSessionId_some_mem s sid now row hv).1,
        (validateSessionId_some_mem s sid now row hv).2.1,
        (validateSessionId_some_mem s sid now row hv).2.2⟩ hno
  · simp only [refreshToken]
    cases hv : validateSessionId (revokeSession s sid) sid now with
    | none => rfl
    | some row =>
      exfalso
      have hin := (validateSessionId_some_mem _ sid now row hv).1
      have hsid := (validateSessionId_some_mem _ sid now row hv).2.1
      unfold revokeSession at hin
      rw [List.mem_filter] at hin
      have := hin.2
      simp only [Bool.not_eq_true', beq_eq_false_iff_ne, ne_eq] at this
      exact this hsid

/-- Witness for C8: in a store with only the session `sess1`, the unknown
session id `zzz` has no row, and refreshing with it fails closed. -/
theorem c8_refresh_fails_closed_witness :
    (¬ ∃ r ∈ c8Store.refreshTokens, r.sessionId = "zzz" ∧ 10 < r.expiresAt) ∧
    refreshToken c8Store (some "zzz") 10 = .invalidOrExpired :=
  ⟨by decide, (c8_refresh_fails_closed c8Store "zzz" 10).2.1 (by decide)⟩

/-- A list with a member has a first element. -/
theorem head?_isSome_of_mem {α : Type} (l : List α) (a : α) (h : a ∈ l) :
    ∃ b, l.head? = some b := by
  cases l with
  | nil => cases h
  | cons x xs => exact ⟨x, rfl⟩

/-- A list with a member is not empty. -/
theorem isEmpty_false_of_mem {α : Type} (l : List α) (a : α) (h : a ∈ l) :
    l.isEmpty = false := by
  cases l with
  | nil => cases h
  | cons x xs => rfl

/-! ## C10 — guest share fails before mutating when a token does not resolve -/

/-- When some supplied share token resolves to no active photo, and share
tokens are unique across photos (the schema declares a unique index on
`Photo.shareToken`), strictly fewer photos resolve than tokens were
supplied. -/
theorem resolved_lt_of_missing (photos : List Photo) (tokens : List String)
    (hnodup : (photos.map Photo.shareToken).Nodup)
    (t : String) (ht : t ∈ tokens)
    (hmiss : ∀ p ∈ photos, p.shareToken = t → p.isActive = false) :
    (photos.filter fun p => tokens.contains p.shareToken && p.isActive).length
      < tokens.length := by
  set L := photos.filter fun p => tokens.contains p.shareToken && p.isActive with hL
  have hsub : (L.map Photo.shareToken).Sublist (photos.map Photo.shareToken) :=
    (List.filter_sublist _).map _
  have hnd : (L.map Photo.shareToken).Nodup := hnodup.sublist hsub
  have hcard : (L.map Photo.shareToken).toFinset.card = L.length := by
    rw [List.toFinset_card_of_nodup hnd, List.length_map]
  have hsubset : (L.map Photo.shareToken).toFinset ⊆ tokens.toFinset.erase t := by
    intro x hx
    rw [List.mem_toFinset] at hx
    obtain ⟨p, hpL, rfl⟩ := List.mem_map.mp hx
    have hp := List.mem_filter.mp hpL
    have hb := hp.2
    simp only [Bool.and_eq_true] at hb
    have hmem : p.shareToken ∈ tokens := by simpa using hb.1
    have hne : p.shareToken ≠ t := by
      intro he
      have hfalse := hmiss p hp.1 he
      rw [hfalse] at hb
      exact absurd hb.2 (by simp)
    rw [Finset.mem_erase]
    exact ⟨hne, List.mem_toFinset.mpr hmem⟩
  have h1 : L.length ≤ (tokens.toFinset.erase t).card := by
    rw [← hcard]
    exact Finset.card_le_card hsubset
  have h2 : (tokens.toFinset.erase t).card < tokens.toFinset.card :=
    Finset.card_erase_lt_of_mem (List.mem_toFinset.mpr ht)
  have h3 : tokens.toFinset.card ≤ tokens.length := tokens.toFinset_card_le
  omega

/-- C10: when any supplied share token does not resolve to an active photo,
`createGuest` answers the photo-resolution error and returns the store
untouched — no guest is created or updated, no guardianship edge is added,
and no photo-access edge is deleted or created. -/
theorem c10_createGuest_atomic_precondition (s : Store)
    (clientUsername clientUserId email guestName : String)
    (photoIds : List String) (expirationDays : Nat) (fresh : GuestFresh)
    (now : Time)
    (hnodup : (s.photos.map Photo.shareToken).Nodup)
    (t : String) (ht : t ∈ photoIds)
    (hmiss : ∀ p ∈ s.photos, p.shareToken = t → p.isActive = false) :
    createGuest s clientUsername clientUserId email guestName photoIds
        expirationDays fresh now =
      (.photosNotFound
        (s.photos.filter fun p => photoIds.contains p.shareToken && p.isActive).length
        photoIds.length,
       s) := by
  have hlt := resolved_lt_of_missing s.photos photoIds hnodup t ht hmiss
  have hcond :
      ((s.photos.filter fun p =>
          photoIds.contains p.shareToken && p.isActive).length
        != photoIds.length) = true :=
    bne_iff_ne.mpr (Nat.ne_of_lt hlt)
  simp only [createGuest]
  rw [if_pos hcond]

/-- Witness for C10: with no photos stored at all, sharing the unresolved
token `tok1` fails with the resolution error and leaves the empty store
unchanged. -/
theorem c10_createGuest_atomic_precondition_witness :
    ("tok1" ∈ ["tok1"]) ∧
    createGuest emptyStore "alice" "#a1" "g@example.com" "Guesty" ["tok1"] 7
        { ivCheck := "iv1", ivStore := "iv2", username := "gu1",
          passwordHash := "h1", guestId := "gid1", rid := "#g1" } 0 =
      (.photosNotFound 0 1, emptyStore) :=
  ⟨by decide,
   c10_createGuest_atomic_precondition emptyStore "alice" "#a1" "g@example.com"
     "Guesty" ["tok1"] 7
     { ivCheck := "iv1", ivStore := "iv2", username := "gu1",
       passwordHash := "h1", guestId := "gid1", rid := "#g1" } 0
     (by decide) "tok1" (by decide) (by decide)⟩

/-! ## C1 — edge currency on the read paths -/

/-- What actually holds of the single-photo read path: a `PhotoAccess` edge
row whose `isActive` is anything other than `true` never grants the
client/guest photo fetch.  (The expiry half of the currency invariant is not
enforced there — see the counterexample — and the collection-photo path
checks no edge field at all.) -/
theorem c1_currency_amended (s : Store) (userId photoId : String)
    (h : ∀ pa ∈ s.photoAccess, pa.photoId = some photoId →
      pa.userId = some userId → pa.isActive ≠ some true) :
    getPhotoClientGuest s userId photoId = none := by
  have hfil : (s.photoAccess.filter fun pa =>
      pa.photoId == some photoId && pa.userId == some userId &&
        pa.isActive == some true) = [] := by
    rw [List.filter_eq_nil_iff]
    intro pa hpa
    simp only [Bool.and_eq_true, beq_iff_eq, not_and]
    rintro ⟨h1, h2⟩ h3
    exact h pa hpa h1 h2 h3
  simp only [getPhotoClientGuest]
  rw [hfil]
  cases s.photos.filter fun p =>
      p.photoId == photoId && p.isActive && p.scheduledDeletionDate == none with
  | nil => rfl
  | cons a l => rfl

/-- Witness for the amended C1 statement: a store holding one inactive
`PhotoAccess` row for the pair denies the fetch. -/
theorem c1_currency_amended_witness :
    (let s := { emptyStore with
      photos := [{ rid := "#p1", photoId := "p1", photographerId := "ph1",
                   shareToken := "t1", isActive := true, deletedAt := none,
                   scheduledDeletionDate := none, deletionReason := none,
                   photoDataB64 := "DATA", uploadedAt := 0 }],
      photoAccess := [{ outV := none, inV := none, photoId := some "p1",
                        userId := some "c1", userType := some "client",
                        accessType := "view", grantedAt := 0,
                        grantedBy := some "ph1", isActive := some false,
                        expiresAt := none }] }
    getPhotoClientGuest s "c1" "p1" = none) :=
  c1_currency_amended _ "c1" "p1" (by decide)

/-- C1 counterexample: in `c1Store` the single `CollectionAccess` edge is
stale (`active = some false`) and the single `PhotoAccess` row is stale by
expiry (`expiresAt = some 5`, while the fetch happens at time 10) yet both
read paths serve the photo instead of denying: the collection-photo fetch
returns the photo list and the single-photo fetch returns the photo data. -/
theorem c1_currency_counterexample :
    (c1Store.collectionAccess.map fun e => e.isActive) = [some false] ∧
    getClientCollectionPhotos c1Store "alice" "c1" = .ok [c1Photo] ∧
    (c1Store.photoAccess.map fun pa => (pa.isActive, pa.expiresAt)) =
      [(some true, some 5)] ∧ (5 : Nat) ≤ 10 ∧
    getPhotoClientGuest c1Store "cg1" "p1" = some "DATA" := by
  exact ⟨by decide, by decide, by decide, by decide, by decide⟩

/-! ## C2 — collection restore -/

/-- After `restoreDeletedPhoto` every row carrying the restored id is in the
restored field state. -/
theorem restoreDeletedPhoto_restored (acc : Store) (pid : String) (q : Photo)
    (hq : q ∈ (restoreDeletedPhoto acc pid).photos) (hid : q.photoId = pid) :
    PhotoRestored q := by
  unfold restoreDeletedPhoto at hq
  obtain ⟨a, _, rfl⟩ := List.mem_map.mp hq
  by_cases h : (a.photoId == pid) = true
  · rw [if_pos h]
    exact ⟨rfl, rfl, rfl, rfl⟩
  · rw [if_neg h] at hid
    exact absurd (beq_iff_eq.mpr hid) h

/-- `restoreDeletedPhoto` preserves the restored state of rows with any other
id. -/
theorem restoreDeletedPhoto_preserves (acc : Store) (pid pid2 : String)
    (hacc : ∀ q ∈ acc.photos, q.photoId = pid → PhotoRestored q) :
    ∀ q ∈ (restoreDeletedPhoto acc pid2).photos, q.photoId = pid →
      PhotoRestored q := by
  intro q hq hid
  unfold restoreDeletedPhoto at hq
  obtain ⟨a, ha, rfl⟩ := List.mem_map.mp hq
  by_cases h : (a.photoId == pid2) = true
  · rw [if_pos h]
    exact ⟨rfl, rfl, rfl, rfl⟩
  · rw [if_neg h] at hid ⊢
    exact hacc a ha hid

/-- The restore loop of the admin route preserves the restored state. -/
theorem restoreFold_preserves (l : List Photo) (acc : Store) (pid : String)
    (hacc : ∀ q ∈ acc.photos, q.photoId = pid → PhotoRestored q) :
    ∀ q ∈ (l.foldl (fun a x => restoreDeletedPhoto a x.photoId) acc).photos,
      q.photoId = pid → PhotoRestored q := by
  induction l generalizing acc with
  | nil => exact hacc
  | cons x xs ih =>
    exact ih (restoreDeletedPhoto acc x.photoId)
      (restoreDeletedPhoto_preserves acc pid x.photoId hacc)

/-- Once the restore loop has visited an id, every row with that id is
restored. -/
theorem restoreFold_establishes (l : List Photo) (acc : Store) (pid : String) :
    pid ∈ l.map Photo.photoId →
    ∀ q ∈ (l.foldl (fun a x => restoreDeletedPhoto a x.photoId) acc).photos,
      q.photoId = pid → PhotoRestored q := by
  induction l generalizing acc with
  | nil => intro hpid; cases hpid
  | cons x xs ih =>
    intro hpid q hq hid
    rw [List.map_cons, List.mem_cons] at hpid
    rcases hpid with heq | hmem
    · refine restoreFold_preserves xs (restoreDeletedPhoto acc x.photoId) pid
        ?_ q hq hid
      intro q2 hq2 hid2
      exact restoreDeletedPhoto_restored acc x.photoId q2 hq2 (hid2.trans heq)
    · exact ih (restoreDeletedPhoto acc x.photoId) hmem q hq hid

/-- C2 as the code implements it: restoring a collection restores every photo
of the collection that is pending deletion at restore time, regardless of why
it entered that state — the deletion origin is not tracked, so photos
independently marked before the cascade are resurrected too. -/
theorem c2_restore_amended (s : Store) (cid : String) (p : Photo)
    (hp : p ∈ s.photos)
    (hlink : (collectionPhotoRids s cid).contains p.rid = true)
    (hpend : p.scheduledDeletionDate.isSome = true) :
    ∀ q ∈ (adminRestoreCollection s cid).1.photos, q.photoId = p.photoId →
      PhotoRestored q := by
  intro q hq hid
  have hvict : p ∈ s.photos.filter fun r =>
      r.scheduledDeletionDate.isSome &&
        (collectionPhotoRids s cid).contains r.rid := by
    rw [List.mem_filter]
    exact ⟨hp, by rw [hpend, hlink]; rfl⟩
  have hpid : p.photoId ∈ (s.photos.filter fun r =>
      r.scheduledDeletionDate.isSome &&
        (collectionPhotoRids s cid).contains r.rid).map Photo.photoId :=
    List.mem_map.mpr ⟨p, hvict, rfl⟩
  exact restoreFold_establishes _ s p.photoId hpid q hq hid

/-- Witness for the amended C2 statement on the concrete C2 pipeline: the
independently deleted photo `pb` is pending in `c2Store2` and fully restored
by the admin restore. -/
theorem c2_restore_amended_witness :
    (c2PhotoPbMarked ∈ c2Store2.photos) ∧ PhotoRestored c2PhotoPbRestored :=
  ⟨by decide,
   c2_restore_amended c2Store2 "cW" c2PhotoPbMarked (by decide) (by decide)
     (by decide) c2PhotoPbRestored (by decide) (by decide)⟩

/-- C2 counterexample: photo `pb` is independently marked for deletion at
time 100 (before the collection cascade at time 200), yet the admin restore
of collection `cW` resurrects it — its active flag and deletion schedule are
reset along with the cascaded photo `pa`. -/
theorem c2_restore_counterexample :
    (c2Store1.photos.map fun p => (p.photoId, p.scheduledDeletionDate,
        p.deletionReason)) =
      [("pa", none, none),
       ("pb", some (100 + sevenDaysMs), some "Deleted by photographer")] ∧
    (deleteCollection c2Store1 "ph1" "cW" 200).1 = .ok 2 ∧
    (c2Store3.photos.map fun p => (p.photoId, p.isActive,
        p.scheduledDeletionDate)) =
      [("pa", true, none), ("pb", true, none)] := by
  exact ⟨by decide, by decide, by decide⟩

/-! ## C3 — collection autoDeleteAt on upload -/

/-- One upload iteration never touches the collections list. -/
theorem uploadOneFile_collections (s : Store) (pid cid : String)
    (f : UploadFile) (now : Time) :
    (uploadOneFile s pid cid f now).1.collections = s.collections := by
  simp only [uploadOneFile]
  split <;> rfl

/-- When an active collection with the requested id exists, the link step of
an upload iteration succeeds. -/
theorem uploadOneFile_ok (s : Store) (pid cid : String) (f : UploadFile)
    (now : Time) (c : PhotoCollection) (hc : c ∈ s.collections)
    (hcid : c.collectionId = cid) (hact : c.isActive = true) :
    (uploadOneFile s pid cid f now).2 = true := by
  have hc1 : c ∈ ({ s with photos := s.photos ++ [insertedPhoto pid f now] } :
      Store).collections.filter (fun x => x.collectionId == cid && x.isActive) := by
    rw [List.mem_filter]
    exact ⟨hc, by rw [hcid, hact]; simp⟩
  obtain ⟨c0, hc0⟩ := head?_isSome_of_mem _ c hc1
  have hp1 : insertedPhoto pid f now ∈
      ({ s with photos := s.photos ++ [insertedPhoto pid f now] } :
        Store).photos.filter (fun x => x.shareToken == f.shareToken && x.isActive) := by
    rw [List.mem_filter]
    exact ⟨List.mem_append_right _ (List.mem_singleton_self _),
      by simp [insertedPhoto]⟩
  obtain ⟨p0, hp0⟩ := head?_isSome_of_mem _ _ hp1
  simp only [uploadOneFile]
  rw [show uploadFromSel
        { s with photos := s.photos ++ [insertedPhoto pid f now] } cid = some c0
      from hc0,
     show uploadToSel
        { s with photos := s.photos ++ [insertedPhoto pid f now] } f.shareToken
          = some p0
      from hp0]

/-- The upload loop counts one success per file and leaves the collections
list untouched, provided an active collection with the requested id
exists. -/
theorem uploadFold_count (files : List UploadFile) (pid cid : String)
    (now : Time) (c : PhotoCollection) (hcid : c.collectionId = cid)
    (hact : c.isActive = true) :
    ∀ (s : Store) (k : Nat), c ∈ s.collections →
      (files.foldl (uploadStep pid cid now) (s, k)).2 = k + files.length ∧
      (files.foldl (uploadStep pid cid now) (s, k)).1.collections =
        s.collections := by
  induction files with
  | nil => exact fun s k _ => ⟨by simp, rfl⟩
  | cons f fs ih =>
    intro s k hc
    have hok := uploadOneFile_ok s pid cid f now c hc hcid hact
    have hcols := uploadOneFile_collections s pid cid f now
    have hstep : uploadStep pid cid now (s, k) f =
        ((uploadOneFile s pid cid f now).1, k + 1) := by
      simp only [uploadStep]
      rw [hok]
      simp
    obtain ⟨ih1, ih2⟩ := ih (uploadOneFile s pid cid f now).1 (k + 1)
      (by rw [hcols]; exact hc)
    constructor
    · rw [List.foldl_cons, hstep, ih1, List.length_cons]
      omega
    · rw [List.foldl_cons, hstep, ih2, hcols]

/-- C3 as the code implements it: every upload of at least one photo into an
existing active collection sets the collection `autoDeleteAt` to
`now + graceWindowMs expiryMinutes`, regardless of whether it was previously
set — the update is an unconditional overwrite, not a set-once. -/
theorem c3_autoDelete_amended (s : Store) (pid cid : String)
    (files : List UploadFile) (em : Nat) (now : Time)
    (c : PhotoCollection) (hc : c ∈ s.collections) (hcid : c.collectionId = cid)
    (hact : c.isActive = true) (hne : files ≠ []) :
    ∀ c2 ∈ (uploadPhoto s pid cid files em now).1.collections,
      c2.collectionId = cid →
        c2.autoDeleteAt = some (now + graceWindowMs em) := by
  obtain ⟨hcount, hcols⟩ := uploadFold_count files pid cid now c hcid hact s 0 hc
  have hpos : (files.foldl (uploadStep pid cid now) (s, 0)).2 > 0 := by
    rw [hcount]
    have := List.length_pos.mpr hne
    omega
  intro c2 hc2 hid
  simp only [uploadPhoto] at hc2
  rw [if_pos hpos] at hc2
  obtain ⟨a, ha, rfl⟩ := List.mem_map.mp hc2
  by_cases h : (a.collectionId == cid) = true
  · rw [if_pos h]
  · rw [if_neg h] at hid
    exact absurd (beq_iff_eq.mpr hid) h

/-- Witness for the amended C3 statement: the first upload into the fresh
collection `cW` (no `autoDeleteAt`) at time 0 with the default window gives
`autoDeleteAt = some (0 + 30000)`, non-null. -/
theorem c3_autoDelete_amended_witness :
    (c3Col0 ∈ c3Store0.collections) ∧ ([c3File1] ≠ []) ∧
    c3ColAfter1.autoDeleteAt = some (0 + graceWindowMs 0) :=
  ⟨by decide, by decide,
   c3_autoDelete_amended c3Store0 "ph1" "cW" [c3File1] 0 0 c3Col0 (by decide)
     rfl rfl (by decide) c3ColAfter1 (by decide) rfl⟩

/-- C3 counterexample: `cW` starts with `autoDeleteAt` unset; the first
upload (time 0) sets it to 30000, and a second upload into the same
collection (time 100000) overwrites it to 130000 instead of leaving it
unchanged. -/
theorem c3_autoDelete_counterexample :
    (c3Store0.collections.map fun c => c.autoDeleteAt) = [none] ∧
    (c3Store1.collections.map fun c => c.autoDeleteAt) = [some 30000] ∧
    (c3Store2.collections.map fun c => c.autoDeleteAt) = [some 130000] ∧
    some (130000 : Time) ≠ some (30000 : Time) := by
  exact ⟨by decide, by decide, by decide, by decide⟩

/-! ## C4 — re-granting behaviour -/

/-- The photo-share loop appends exactly one `PhotoAccess` row per photo id,
with no duplicate check. -/
theorem sharePhotosFold_length (prids : List String) (s : Store)
    (pid crid aty : String) (now : Time) :
    (prids.foldl (sharePhotosStep pid crid aty now) s).photoAccess.length =
      s.photoAccess.length + prids.length := by
  induction prids generalizing s with
  | nil => simp
  | cons x xs ih =>
    have h1 : (sharePhotosStep pid crid aty now s x).photoAccess.length =
        s.photoAccess.length + 1 := by
      simp [sharePhotosStep]
    rw [List.foldl_cons, ih, h1, List.length_cons]
    omega

/-- C4 as the code implements it: re-sharing a collection with a client that
already has an edge for it never succeeds and never touches the store — the
call is rejected with the already-shared conflict (or an earlier not-found
error) instead of refreshing the edge; and the photo-share path appends one
new `PhotoAccess` row per photo id unconditionally, so re-granting a photo
duplicates the edge rather than updating it. -/
theorem c4_grant_dedup_amended :
    (∀ (s : Store) (pid cid uname : String) (now : Time),
      (∃ e ∈ s.collectionAccess,
        (collectionRidsById s cid).contains e.outV = true ∧
        (clientRidsByUsername s uname).contains e.inV = true) →
      (shareCollection s pid cid uname now).1 ≠ .ok ∧
        (shareCollection s pid cid uname now).2 = s) ∧
    (∀ (s : Store) (pid crid : String) (prids : List String) (aty : String)
        (now : Time) (n : Nat),
      (sharePhotosWithClient s pid crid prids aty now).1 = .ok n →
      (sharePhotosWithClient s pid crid prids aty now).2.photoAccess.length =
        s.photoAccess.length + prids.length) := by
  constructor
  · rintro s pid cid uname now ⟨e, he, h1, h2⟩
    simp only [shareCollection]
    by_cases hA : ((s.collections.filter fun c =>
        c.collectionId == cid && c.photographerId == pid &&
          c.isActive && c.scheduledDeletionDate == none).isEmpty) = true
    · rw [if_pos hA]
      exact ⟨fun hcontra => ShareCollectionResult.noConfusion hcontra, rfl⟩
    · rw [if_neg hA]
      by_cases hB : ((s.clients.filter fun c =>
          c.username == uname && c.photographerId == pid &&
            c.isActive).isEmpty) = true
      · rw [if_pos hB]
        exact ⟨fun hcontra => ShareCollectionResult.noConfusion hcontra, rfl⟩
      · rw [if_neg hB]
        have hmem : e ∈ s.collectionAccess.filter fun e2 =>
            (collectionRidsById s cid).contains e2.outV &&
              (clientRidsByUsername s uname).contains e2.inV := by
          rw [List.mem_filter]
          exact ⟨he, by rw [h1, h2]; rfl⟩
        have hne := isEmpty_false_of_mem _ e hmem
        rw [if_pos (by rw [hne]; rfl)]
        exact ⟨fun hcontra => ShareCollectionResult.noConfusion hcontra, rfl⟩
  · intro s pid crid prids aty now n h
    simp only [sharePhotosWithClient] at h ⊢
    by_cases hA : ((s.clients.filter fun c =>
        c.rid == crid && c.photographerId == pid).isEmpty) = true
    · rw [if_pos hA] at h
      exact SharePhotosResult.noConfusion h
    · rw [if_neg hA] at h ⊢
      by_cases hB : (((s.photos.filter fun p =>
          prids.contains p.rid && p.photographerId == pid &&
            p.isActive).length != prids.length) = true)
      · rw [if_pos hB] at h
        exact SharePhotosResult.noConfusion h
      · rw [if_neg hB]
        exact sharePhotosFold_length prids s pid crid aty now

/-- Witness for the amended C4 statement: `c4Store` already holds an edge for
the (`cc`, `bob`) pair, so the second share is a no-op failure; and a
successful photo share of one photo grows the `PhotoAccess` table by one
row. -/
theorem c4_grant_dedup_amended_witness :
    ((∃ e ∈ c4Store.collectionAccess,
      (collectionRidsById c4Store "cc").contains e.outV = true ∧
      (clientRidsByUsername c4Store "bob").contains e.inV = true) ∧
     ((shareCollection c4Store "ph1" "cc" "bob" 5).1 ≠ .ok ∧
      (shareCollection c4Store "ph1" "cc" "bob" 5).2 = c4Store)) ∧
    (c4Share1.1 = .ok 1 ∧
     c4Share1.2.photoAccess.length = c4StoreP.photoAccess.length + 1) :=
  ⟨⟨by decide, c4_grant_dedup_amended.1 c4Store "ph1" "cc" "bob" 5 (by decide)⟩,
   ⟨by decide,
    c4_grant_dedup_amended.2 c4StoreP "ph1" "#b" ["#p1"] "view" 0 1 (by decide)⟩⟩

/-- C4 counterexample: re-sharing collection `cc` with client `bob` (who
already holds an edge) is rejected with the already-shared error instead of
updating the edge and succeeding; and re-granting photo `#p1` to `bob`
through the photo-share path appends a second identical `PhotoAccess` row, so
a state with two edges for the same (resource, grantee) pair is reachable
through grant. -/
theorem c4_grant_dedup_counterexample :
    (shareCollection c4Store "ph1" "cc" "bob" 5).1 = .alreadyShared ∧
    (shareCollection c4Store "ph1" "cc" "bob" 5).1 ≠ .ok ∧
    (shareCollection c4Store "ph1" "cc" "bob" 5).2 = c4Store ∧
    c4Share2.1 = .ok 1 ∧
    (c4Share2.2.photoAccess.map fun pa => (pa.photoId, pa.userId)) =
      [(some "#p1", some "#b"), (some "#p1", some "#b")] := by
  exact ⟨by decide, by decide, by decide, by decide, by decide⟩

/-! ## C5 — guest photo-set replacement -/

/-- C5: the replacement contract is broken by the code.  `createGuest` looks
up an existing guest by comparing a *fresh* encryption of the email
(`encryptSimple` draws a new random IV per call) against the stored
ciphertext, so the lookup never matches an earlier share; the second call for
the same (client, email) therefore creates a second `Guest` vertex and only
clears the new, empty guest edges.  After sharing `[t2]` following `[t1]`,
the first guest still holds its `PhotoAccess` edge to the `t1` photo — the
photo set for that guest email is accumulated across guest vertices, not
replaced. -/
theorem c5_guest_replacement_code_bug :
    c5Call1.1 = .ok "gu1" 1 ∧
    c5Call2.1 = .ok "gu2" 1 ∧
    c5Call2.2.guests.length = 2 ∧
    (c5Call2.2.photoAccess.map fun pa => (pa.outV, pa.inV)) =
      [(some "#p1", some "#g1"), (some "#p2", some "#g2")] := by
  exact ⟨by decide, by decide, by decide, by decide⟩

/-! ## C6 — expired guest login -/

/-- C6 as the code implements it: a guest login after the expiry instant is
rejected — but with the merged message `Invalid credentials or access
expired` produced by the combined lookup query (the same message an unknown
username gets), not a dedicated expiry message — and the store, including the
guest active flag, is untouched. -/
theorem c6_guest_expiry_amended (s : Store) (username password : String)
    (cmp : String → String → Bool) (now : Time)
    (h : ∀ g ∈ s.guests, g.username = username → g.expiresAt ≤ now) :
    authenticateGuest s username password cmp now =
      (.authFailed "Invalid credentials or access expired", s) := by
  have hfil : (s.guests.filter fun g =>
      g.username == username && g.isActive && now < g.expiresAt) = [] := by
    rw [List.filter_eq_nil_iff]
    intro g hg
    simp only [Bool.and_eq_true, beq_iff_eq, decide_eq_true_eq, not_and]
    rintro ⟨h1, h2⟩ h3
    exact absurd h3 (not_lt.mpr (h g hg h1))
  simp only [authenticateGuest]
  rw [hfil]

/-- Witness for the amended C6 statement at the concrete expired guest. -/
theorem c6_guest_expiry_amended_witness :
    (∀ g ∈ c6Store.guests, g.username = "gu" → g.expiresAt ≤ 101) ∧
    authenticateGuest c6Store "gu" "pw" cmpHpw 101 =
      (.authFailed "Invalid credentials or access expired", c6Store) :=
  ⟨by decide, c6_guest_expiry_amended c6Store "gu" "pw" cmpHpw 101 (by decide)⟩

/-- C6 counterexample: the guest `gu` expires at 100 and presents the correct
password at 101; the login fails with `Invalid credentials or access
expired` — not the distinct message `Guest access has expired` the claim
requires — while the guest row (active flag included) stays unchanged. -/
theorem c6_guest_expiry_counterexample :
    cmpHpw "pw" "hpw" = true ∧
    (c6Store.guests.map fun g => (g.expiresAt, g.isActive)) = [(100, true)] ∧
    authenticateGuest c6Store "gu" "pw" cmpHpw 101 =
      (.authFailed "Invalid credentials or access expired", c6Store) ∧
    "Invalid credentials or access expired" ≠ "Guest access has expired" := by
  exact ⟨by decide, by decide, by decide, by decide⟩

/-! ## C7 — credential verification and lastLogin -/

/-- C7 as the code implements it: the `lastLogin` write happens only after a
successful password verification (whenever the call returns an error the
store is untouched), but a failing `lastLogin` write fails the whole call —
the error propagates, so no principal is returned. -/
theorem c7_lastLogin_amended :
    (∀ (s : Store) (u p : String) (cmp : String → String → Bool) (wok : Bool)
        (now : Time),
      (authenticateUser s u p cmp wok now).1.isErr = true →
        (authenticateUser s u p cmp wok now).2 = s) ∧
    (∀ (s : Store) (u p : String) (cmp : String → String → Bool) (now : Time),
      (authenticateUser s u p cmp false now).1.isErr = true) := by
  constructor
  · intro s u p cmp wok now
    simp only [authenticateUser]
    cases probeUser s u with
    | none => intro _; rfl
    | some f =>
      simp only []
      intro h
      by_cases h1 : (f.isActive == false) = true
      · rw [if_pos h1]
      · rw [if_neg h1] at h ⊢
        by_cases h2 : (!(cmp p f.password)) = true
        · rw [if_pos h2]
        · rw [if_neg h2] at h ⊢
          by_cases h3 : (!wok) = true
          · rw [if_pos h3]
          · rw [if_neg h3] at h
            exact absurd h (by simp [AuthUserResult.isErr])
  · intro s u p cmp now
    simp only [authenticateUser]
    cases probeUser s u with
    | none => rfl
    | some f =>
      simp only []
      by_cases h1 : (f.isActive == false) = true
      · rw [if_pos h1]; rfl
      · rw [if_neg h1]
        by_cases h2 : (!(cmp p f.password)) = true
        · rw [if_pos h2]; rfl
        · rw [if_neg h2]
          rfl

/-- Witness for the amended C7 statement at the concrete admin store. -/
theorem c7_lastLogin_amended_witness :
    ((authenticateUser c7Store "admin" "pw" cmpHpw false 5).1.isErr = true) ∧
    ((authenticateUser c7Store "admin" "pw" cmpHpw false 5).2 = c7Store) :=
  ⟨c7_lastLogin_amended.2 c7Store "admin" "pw" cmpHpw 5,
   c7_lastLogin_amended.1 c7Store "admin" "pw" cmpHpw false 5 (by decide)⟩

/-- C7 counterexample: the admin credentials verify (the same call with a
healthy store succeeds and returns the stripped principal), yet when the
`lastLogin` write raises, the whole call returns an error instead of the
principal. -/
theorem c7_lastLogin_counterexample :
    cmpHpw "pw" "hpw" = true ∧
    (authenticateUser c7Store "admin" "pw" cmpHpw true 5).1 =
      .ok "#u" "admin" "User" ∧
    (authenticateUser c7Store "admin" "pw" cmpHpw false 5).1 =
      .err "lastLogin update failed" := by
  exact ⟨by decide, by decide, by decide⟩

end StoyShare
